import Mathlib

/- Shallow embedding of the parameter-validation and noise-application core of
the qiskit-practice repository: src/utils/validation.py, the validate_and_prompt
resolver of src/main.py, and src/noise_models/amplitude_damping.py. Python
floats are modelled as exact rationals, Python str values as String, raised
ValueError as Except.error carrying the (static part of the) message. -/

/-- Lowercasing of one ASCII character, as Python str.lower acts on the ASCII
tokens this embedding handles. -/
def lowerChar (c : Char) : Char :=
  if 65 ≤ c.toNat ∧ c.toNat ≤ 90 then Char.ofNat (c.toNat + 32) else c

/-- Python str.lower restricted to ASCII strings (every token the embedded code
compares is ASCII). -/
def lowerString (s : String) : String := String.mk (s.data.map lowerChar)

/-- Equality of Except values is decidable componentwise; the derived handler is
spelled out so that concrete validator runs evaluate. -/
instance {ε α : Type} [DecidableEq ε] [DecidableEq α] : DecidableEq (Except ε α) := fun x y =>
  match x, y with
  | .ok a, .ok b => if h : a = b then .isTrue (by simp [h]) else .isFalse (by simp [h])
  | .error a, .error b => if h : a = b then .isTrue (by simp [h]) else .isFalse (by simp [h])
  | .ok _, .error _ => .isFalse (by simp)
  | .error _, .ok _ => .isFalse (by simp)

/-- Modelled from the spec: src/state_preparation/state_constants.py
(STATE_CLASSES) is not among the provided sources; the spec names the state
families GHZ, W, CLUSTER. validate_inputs consults only the key set. -/
def STATE_CLASSES_keys : List String := ["GHZ", "W", "CLUSTER"]

/-- Modelled from the spec: the NOISE_CLASSES registry of src/noise_models is
not among the provided sources; the spec names DEPOLARIZING, PHASE_FLIP,
AMPLITUDE_DAMPING, THERMAL_RELAXATION. validate_inputs consults only the key
set. -/
def NOISE_CLASSES_keys : List String :=
  ["DEPOLARIZING", "PHASE_FLIP", "AMPLITUDE_DAMPING", "THERMAL_RELAXATION"]

/-- The IEEE-754 double closest to π, i.e. the value of numpy.pi that
validation.py compares angles against. -/
def np_pi : ℚ := 884279719003555 / 281474976710656

/-- Angle check of validate_inputs: only for CLUSTER states with an angle
supplied, the angle must lie in [0, 2π]. -/
def checkAngle (state_type : String) (angle : Option ℚ) : Except String Unit :=
  if state_type = "CLUSTER" then
    match angle with
    | some x =>
        if 0 ≤ x ∧ x ≤ 2 * np_pi then .ok ()
        else .error "Angle for CLUSTER state must be between 0 and 2π radians."
    | none => .ok ()
  else .ok ()

/-- Error-rate check of validate_inputs: a supplied error rate must lie in
[0, 1]. -/
def checkErrorRate (error_rate : Option ℚ) : Except String Unit :=
  match error_rate with
  | some e =>
      if 0 ≤ e ∧ e ≤ 1 then .ok ()
      else .error "Error rate must be between 0 and 1."
  | none => .ok ()

/-- Phase-flip pair check of validate_inputs: runs only when noise_type is
PHASE_FLIP and at least one of z_prob, i_prob is supplied; then both must be
supplied, each in [0, 1], and their sum within (strictly) 1e-10 of 1. -/
def checkPhaseFlip (noise_type : String) (z_prob i_prob : Option ℚ) :
    Except String Unit :=
  if noise_type = "PHASE_FLIP" ∧ (z_prob.isSome || i_prob.isSome) = true then
    match z_prob, i_prob with
    | some zv, some iv =>
        if 0 ≤ zv ∧ zv ≤ 1 ∧ 0 ≤ iv ∧ iv ≤ 1 ∧ |zv + iv - 1| < 1e-10 then
          .ok ()
        else
          .error "Z and I probabilities for PHASE_FLIP must sum to 1 and be between 0 and 1."
    | _, _ =>
        .error "Both z_prob and i_prob must be provided for PHASE_FLIP noise."
  else .ok ()

/-- Thermal-relaxation pair check of validate_inputs: runs only when noise_type
is THERMAL_RELAXATION and at least one of t1, t2 is supplied; then both must be
supplied, strictly positive, with t2 ≤ t1. -/
def checkThermal (noise_type : String) (t1 t2 : Option ℚ) :
    Except String Unit :=
  if noise_type = "THERMAL_RELAXATION" ∧ (t1.isSome || t2.isSome) = true then
    match t1, t2 with
    | some a, some b =>
        if a ≤ 0 ∨ b ≤ 0 ∨ b > a then
          .error "T1 and T2 must be positive, with T2 <= T1 for realistic relaxation."
        else .ok ()
    | _, _ =>
        .error "Both t1 and t2 must be provided for THERMAL_RELAXATION noise."
  else .ok ()

/-- src/utils/validation.py validate_inputs. Python raises ValueError on the
first failed check; the embedding returns Except.error with the static part of
the message, and Except.ok () where the Python function returns None. -/
def validate_inputs (num_qubits : Int) (state_type noise_type sim_mode : String)
    (angle error_rate z_prob i_prob t1 t2 : Option ℚ) : Except String Unit :=
  if num_qubits < 1 then .error "Number of qubits must be at least 1."
  else if state_type ∉ STATE_CLASSES_keys then .error "Invalid state type"
  else if noise_type ∉ NOISE_CLASSES_keys then .error "Invalid noise type"
  else if sim_mode ∉ (["qasm", "density"] : List String) then
    .error "Invalid simulation mode"
  else do
    checkAngle state_type angle
    checkErrorRate error_rate
    checkPhaseFlip noise_type z_prob i_prob
    checkThermal noise_type t1 t2

/-- src/utils/validation.py InputValidator.validate_choice. -/
def InputValidator.validate_choice (user_input : String)
    (valid_options : Option (List String)) (case_sensitive : Bool) : Bool :=
  match valid_options with
  | none => true
  | some opts =>
    if opts = [] then true
    else if case_sensitive then opts.contains user_input
    else (opts.map lowerString).contains (lowerString user_input)

/-- src/utils/validation.py InputValidator.validate_numeric: the conversion
attempt int(user_input) / float(user_input) is a fallible function
(Except.error models the ValueError the Python builtin raises); the
try/except returns the converted value on success and None on failure. -/
def InputValidator.validate_numeric {α : Type}
    (expected_type : String → Except String α) (user_input : String) :
    Option α :=
  match expected_type user_input with
  | .ok v => some v
  | .error _ => none

/-- Digit run to a natural number. -/
def digitsToNat (cs : List Char) : Nat :=
  cs.foldl (fun a c => a * 10 + (c.toNat - 48)) 0

/-- Whitespace as stripped by Python str conversion to int. -/
def isPySpace (c : Char) : Bool :=
  c = ' ' ∨ c = '\t' ∨ c = '\n' ∨ c = '\r' ∨ c = '\x0b' ∨ c = '\x0c'

/-- Model of the Python builtin int applied to a str: surrounding whitespace is
stripped, an optional sign precedes a nonempty run of decimal digits; anything
else raises ValueError (underscore digit grouping is not modelled). -/
def pyIntOfString (s : String) : Except String Int :=
  let t := ((s.data.dropWhile isPySpace).reverse.dropWhile isPySpace).reverse
  let signDigits : Int × List Char :=
    match t with
    | '-' :: rest => (-1, rest)
    | '+' :: rest => (1, rest)
    | _ => (1, t)
  if signDigits.2 ≠ [] ∧ signDigits.2.all (fun c => c.isDigit) = true then
    .ok (signDigits.1 * (digitsToNat signDigits.2 : Int))
  else .error "invalid literal for int() with base 10"

/- ----------------------------------------------------------------------
The compatibility resolver: validate_and_prompt of src/main.py.
---------------------------------------------------------------------- -/

/-- Modelled from the spec: src/config/constants.py (SINGLE_QUBIT_NOISE_TYPES)
is not among the provided sources. The spec classifies PHASE_FLIP,
AMPLITUDE_DAMPING and THERMAL_RELAXATION as single-qubit-only and DEPOLARIZING
as multi-qubit-capable. -/
def SINGLE_QUBIT_NOISE_TYPES : List String :=
  ["PHASE_FLIP", "AMPLITUDE_DAMPING", "THERMAL_RELAXATION"]

/-- The slice of the args dict that validate_and_prompt reads or writes. -/
structure Config where
  num_qubits : Int
  state_type : String
  noise_type : String
  noise_enabled : Bool
  sim_mode : String
  shots : Int
  visualization_type : String
  min_occurrences : Int
  show_real : Bool
  show_imag : Bool
deriving Repr, DecidableEq

/-- Models get_input of main.py at a choice prompt: the input is stripped and
lowercased, and the prompt loop only ever returns a member of valid_options
(Enter or Ctrl-C yield the default, itself a member of the list). The re-prompt
loop on invalid input is modelled by mapping any token outside the option list
to the default. -/
def promptChoice (r dflt : String) (opts : List String) : String :=
  if opts.contains (lowerString r) then lowerString r else dflt

/-- Option list of the check-1 prompt (single_qubit_noise_prompt). -/
def single_qubit_noise_options : List String := ["p", "switch", "c"]

/-- Option list of the check-2 prompt (hypergraph_single_qubit_prompt). -/
def hypergraph_single_qubit_options : List String := ["p", "switch", "v"]

/-- Option list of the check-3 prompt (density_noise_prompt). -/
def density_noise_options : List String := ["p", "switch", "c"]

/-- Option list of the check-4 prompt (hypergraph_density_no_noise_prompt). -/
def hypergraph_density_no_noise_options : List String := ["p", "e", "v"]

/-- Option list of the replacement-noise prompt (noise_type_prompt as issued by
the resolver). -/
def noise_switch_options : List String :=
  ["d", "p", "t", "depolarizing", "phase_flip", "thermal_relaxation"]

/-- The replacement-noise token mapping used by every switch branch of
validate_and_prompt. -/
def resolveNoiseSwitch (t : String) : String :=
  if t = "d" ∨ t = "depolarizing" then "DEPOLARIZING"
  else if t = "p" ∨ t = "phase_flip" then "PHASE_FLIP"
  else "THERMAL_RELAXATION"

/-- Responses to the two prompts switch_to_plot may issue (min_occurrences in
qasm mode, the real/imag selector in density mode). -/
structure PlotResponses where
  minOcc : Int
  realImag : String
deriving Repr, DecidableEq

/-- The validated token each prompt site of one validate_and_prompt pass
ultimately returns; each dynamic prompt occurrence has its own field. -/
structure Responses where
  c1 : String
  c1noise : String
  c2 : String
  c2noise : String
  plot2 : PlotResponses
  plotMid : PlotResponses
  c3 : String
  c3noise : String
  c4 : String
  plot4 : PlotResponses
deriving Repr, DecidableEq

/-- switch_to_plot of src/main.py: sets visualization_type to plot and collects
the plot display settings for the current sim_mode. -/
def switch_to_plot (cfg : Config) (r : PlotResponses) : Config :=
  let cfg := { cfg with visualization_type := "plot" }
  if cfg.sim_mode = "qasm" then
    { cfg with min_occurrences := r.minOcc }
  else
    let ri := promptChoice r.realImag "a" ["r", "i", "a"]
    { cfg with show_real := ri = "r", show_imag := ri = "i" }

/-- Outcome of validate_and_prompt: either the adjusted configuration, or the
restart signal (the source implements restart by tail-calling
collect_parameters(interactive=True), discarding the in-progress args). -/
inductive VPResult where
  | restart
  | done (cfg : Config)
deriving Repr, DecidableEq

/-- Sequencing of resolver stages: a restart short-circuits every later
stage. -/
def vpBind (x : VPResult) (f : Config → VPResult) : VPResult :=
  match x with
  | .restart => .restart
  | .done c => f c

/-- Check 1 of validate_and_prompt: single-qubit noise with a multi-qubit
state. -/
def step1 (cfg : Config) (r : Responses) : VPResult :=
  if cfg.noise_type ∈ SINGLE_QUBIT_NOISE_TYPES ∧ 1 < cfg.num_qubits then
    let choice := promptChoice r.c1 "p" single_qubit_noise_options
    if choice = "switch" then
      .done { cfg with noise_type :=
        resolveNoiseSwitch (promptChoice r.c1noise "depolarizing" noise_switch_options) }
    else if choice = "c" then .restart
    else .done cfg
  else .done cfg

/-- Check 2 of validate_and_prompt: hypergraph visualization with single-qubit
noise and a multi-qubit state. -/
def step2 (cfg : Config) (r : Responses) : Config :=
  if cfg.visualization_type = "hypergraph" ∧
      cfg.noise_type ∈ SINGLE_QUBIT_NOISE_TYPES ∧ 1 < cfg.num_qubits then
    let choice := promptChoice r.c2 "p" hypergraph_single_qubit_options
    if choice = "switch" then
      { cfg with noise_type :=
        resolveNoiseSwitch (promptChoice r.c2noise "depolarizing" noise_switch_options) }
    else if choice = "v" then switch_to_plot cfg r.plot2
    else cfg
  else cfg

/-- Check 3 of validate_and_prompt: density simulation mode with single-qubit
noise while noise is enabled. The token p disables noise; c restarts. -/
def step3 (cfg : Config) (r : Responses) : VPResult :=
  if cfg.sim_mode = "density" ∧ cfg.noise_type ∈ SINGLE_QUBIT_NOISE_TYPES ∧
      cfg.noise_enabled = true then
    let choice := promptChoice r.c3 "p" density_noise_options
    if choice = "switch" then
      .done { cfg with noise_type :=
        resolveNoiseSwitch (promptChoice r.c3noise "depolarizing" noise_switch_options) }
    else if choice = "p" then .done { cfg with noise_enabled := false }
    else if choice = "c" then .restart
    else .done cfg
  else .done cfg

/-- Check 4 of validate_and_prompt: hypergraph visualization in density mode
with noise disabled. -/
def step4 (cfg : Config) (r : Responses) : Config :=
  if cfg.visualization_type = "hypergraph" ∧ cfg.sim_mode = "density" ∧
      cfg.noise_enabled = false then
    let choice := promptChoice r.c4 "p" hypergraph_density_no_noise_options
    if choice = "e" then { cfg with noise_enabled := true }
    else if choice = "v" then switch_to_plot cfg r.plot4
    else cfg
  else cfg

/-- The unconditional step between checks 2 and 3 of validate_and_prompt:
when the visualization intent is plot, the plot display settings are
(re-)collected by another switch_to_plot call. -/
def midPlot (cfg : Config) (r : Responses) : Config :=
  if cfg.visualization_type = "plot" then switch_to_plot cfg r.plotMid else cfg

/-- validate_and_prompt of src/main.py: checks 1 and 2, the unconditional
re-collection of plot settings when visualization_type is plot, then checks 3
and 4; a cancel at check 1 or 3 short-circuits the rest of the pass. -/
def validate_and_prompt (cfg : Config) (r : Responses) : VPResult :=
  vpBind (step1 cfg r) (fun c1 =>
    vpBind (step3 (midPlot (step2 c1 r) r) r) (fun c3 =>
      .done (step4 c3 r)))

/-- A configuration on which none of the four conflict checks of
validate_and_prompt fires, each condition stated as in the source. -/
def conflictFree (cfg : Config) : Prop :=
  ¬(cfg.noise_type ∈ SINGLE_QUBIT_NOISE_TYPES ∧ 1 < cfg.num_qubits) ∧
  ¬(cfg.visualization_type = "hypergraph" ∧
      cfg.noise_type ∈ SINGLE_QUBIT_NOISE_TYPES ∧ 1 < cfg.num_qubits) ∧
  ¬(cfg.sim_mode = "density" ∧ cfg.noise_type ∈ SINGLE_QUBIT_NOISE_TYPES ∧
      cfg.noise_enabled = true) ∧
  ¬(cfg.visualization_type = "hypergraph" ∧ cfg.sim_mode = "density" ∧
      cfg.noise_enabled = false)

instance (cfg : Config) : Decidable (conflictFree cfg) := by
  unfold conflictFree; infer_instance

/- ----------------------------------------------------------------------
src/noise_models/amplitude_damping.py
---------------------------------------------------------------------- -/

/-- The error model of a qiskit NoiseModel, reduced to what
add_all_qubit_quantum_error appends: the channel parameter and the gate names
it is attached to. -/
structure NoiseModel where
  errors : List (ℚ × List String)
deriving Repr, DecidableEq

/-- One structured record emitted by log_noise_application. -/
structure LogRecord where
  noise_type : String
  gates : List String
  warning : Option String
  error_rate : Option ℚ
deriving Repr, DecidableEq

/-- The single-qubit gates amplitude damping may attach to. -/
def amplitude_damping_valid_gates : List String := ["id", "u1", "u2", "u3"]

/-- AmplitudeDampingNoise of src/noise_models/amplitude_damping.py (its
error_rate field comes from BaseNoise). -/
structure AmplitudeDampingNoise where
  error_rate : ℚ
deriving Repr, DecidableEq

/-- AmplitudeDampingNoise.apply: filter the gate list to single-qubit gates;
if none remain, leave the noise model untouched and log a skip; otherwise
attach one amplitude-damping channel to the valid gates and log the
application. The returned list holds the log records emitted by the call. -/
def AmplitudeDampingNoise.apply (self : AmplitudeDampingNoise)
    (noise_model : NoiseModel) (gate_list : List String) :
    NoiseModel × List LogRecord :=
  let valid_gates := gate_list.filter (fun g => amplitude_damping_valid_gates.contains g)
  if valid_gates = [] then
    (noise_model,
     [{ noise_type := "AMPLITUDE_DAMPING", gates := gate_list,
        warning := some "No valid 1-qubit gates found, skipping",
        error_rate := none }])
  else
    ({ errors := noise_model.errors ++ [(self.error_rate, valid_gates)] },
     [{ noise_type := "AMPLITUDE_DAMPING", gates := valid_gates,
        warning := none, error_rate := some self.error_rate }])

/- ----------------------------------------------------------------------
Helper lemmas shared by the claim theorems.
---------------------------------------------------------------------- -/

/-- Sequencing in Except succeeds exactly when both halves succeed. -/
lemma except_bind_ok_iff (x : Except String Unit) (f : Unit → Except String Unit) :
    (x >>= f) = .ok () ↔ x = .ok () ∧ f () = .ok () := by
  cases x with
  | error e => simp [Bind.bind, Except.bind]
  | ok v => cases v; simp [Bind.bind, Except.bind]

/-- A failing prefix determines the result of an Except sequence. -/
lemma except_bind_error (e : String) (f : Unit → Except String Unit) :
    ((Except.error e : Except String Unit) >>= f) = .error e := rfl

/-- A trailing no-op leaves an Except String Unit value unchanged. -/
lemma except_bind_ok_right (x : Except String Unit) :
    (x >>= fun _ => (Except.ok () : Except String Unit)) = x := by
  cases x with
  | error e => rfl
  | ok v => cases v; rfl

lemma vpBind_done (c : Config) (f : Config → VPResult) : vpBind (.done c) f = f c := rfl

lemma vpBind_restart (f : Config → VPResult) : vpBind .restart f = .restart := rfl

/-- switch_to_plot always sets the visualization intent to plot and never
touches the noise fields. -/
lemma switch_to_plot_fields (cfg : Config) (r : PlotResponses) :
    (switch_to_plot cfg r).visualization_type = "plot" ∧
    (switch_to_plot cfg r).noise_type = cfg.noise_type ∧
    (switch_to_plot cfg r).noise_enabled = cfg.noise_enabled := by
  unfold switch_to_plot
  by_cases h : cfg.sim_mode = "qasm" <;> simp [h]

/- ----------------------------------------------------------------------
Concrete configurations and response sheets used by witnesses and
counterexamples.
---------------------------------------------------------------------- -/

/-- Response sheet in which every prompt is answered with its default token. -/
def defaultResponses : Responses :=
  { c1 := "p", c1noise := "d", c2 := "p", c2noise := "d",
    plot2 := { minOcc := 0, realImag := "a" },
    plotMid := { minOcc := 0, realImag := "a" },
    c3 := "p", c3noise := "d", c4 := "p",
    plot4 := { minOcc := 0, realImag := "a" } }

/-- One-qubit density-mode configuration with PHASE_FLIP noise enabled: only
check 3 of the resolver fires on it. -/
def cfgDensityPF : Config :=
  { num_qubits := 1, state_type := "GHZ", noise_type := "PHASE_FLIP",
    noise_enabled := true, sim_mode := "density", shots := 1024,
    visualization_type := "none", min_occurrences := 0,
    show_real := false, show_imag := false }

/-- One-qubit density-mode configuration with AMPLITUDE_DAMPING noise enabled:
only check 3 of the resolver fires on it. -/
def cfgDensityAD : Config :=
  { num_qubits := 1, state_type := "GHZ", noise_type := "AMPLITUDE_DAMPING",
    noise_enabled := true, sim_mode := "density", shots := 1024,
    visualization_type := "none", min_occurrences := 0,
    show_real := false, show_imag := false }

/-- Conflict-free configuration whose visualization intent is plot and whose
stored density display settings differ from the prompt defaults. -/
def cfgPlotDensity : Config :=
  { num_qubits := 1, state_type := "GHZ", noise_type := "DEPOLARIZING",
    noise_enabled := true, sim_mode := "density", shots := 1024,
    visualization_type := "plot", min_occurrences := 0,
    show_real := true, show_imag := false }

/-- Three-qubit GHZ configuration with AMPLITUDE_DAMPING noise: check 1 of the
resolver fires on it. -/
def cfgMultiAD : Config :=
  { num_qubits := 3, state_type := "GHZ", noise_type := "AMPLITUDE_DAMPING",
    noise_enabled := true, sim_mode := "qasm", shots := 1024,
    visualization_type := "none", min_occurrences := 0,
    show_real := false, show_imag := false }

/-- Multi-qubit hypergraph configuration with PHASE_FLIP noise: check 2 of the
resolver fires on it. -/
def cfgHyperPF : Config :=
  { num_qubits := 3, state_type := "GHZ", noise_type := "PHASE_FLIP",
    noise_enabled := true, sim_mode := "qasm", shots := 1024,
    visualization_type := "hypergraph", min_occurrences := 0,
    show_real := false, show_imag := false }

/-- Default responses except that the check-2 prompt is answered v. -/
def responsesV : Responses := { defaultResponses with c2 := "v" }

/-- Default responses except that the check-1 prompt is answered c. -/
def responsesC1 : Responses := { defaultResponses with c1 := "c" }

/-- Default responses except that the check-3 prompt is answered c. -/
def responsesC3 : Responses := { defaultResponses with c3 := "c" }

/- ----------------------------------------------------------------------
C6.
---------------------------------------------------------------------- -/

/-- C6: for every gate set containing no eligible single-qubit gate,
AmplitudeDampingNoise.apply attaches zero channels, leaves the noise model's
error model unchanged, and emits exactly the logged skip record; it is total,
so it cannot fail or raise. -/
theorem amplitude_damping_skip (self : AmplitudeDampingNoise)
    (noise_model : NoiseModel) (gate_list : List String)
    (h : ∀ g ∈ gate_list, g ∉ amplitude_damping_valid_gates) :
    self.apply noise_model gate_list =
      (noise_model,
       [{ noise_type := "AMPLITUDE_DAMPING", gates := gate_list,
          warning := some "No valid 1-qubit gates found, skipping",
          error_rate := none }]) := by
  have hf : gate_list.filter (fun g => amplitude_damping_valid_gates.contains g) = [] := by
    rw [List.filter_eq_nil_iff]
    intro g hg
    simpa using h g hg
  unfold AmplitudeDampingNoise.apply
  rw [hf]
  rfl

/-- C6 witness: a gate set of only multi-qubit gates is skipped with the log
record and no channel attachment. -/
theorem amplitude_damping_skip_witness :
    AmplitudeDampingNoise.apply { error_rate := (1 : ℚ) / 10 } { errors := [] }
      ["cx", "cz"] =
      ({ errors := [] },
       [{ noise_type := "AMPLITUDE_DAMPING", gates := ["cx", "cz"],
          warning := some "No valid 1-qubit gates found, skipping",
          error_rate := none }]) :=
  amplitude_damping_skip { error_rate := (1 : ℚ) / 10 } { errors := [] }
    ["cx", "cz"] (by decide)

/- ----------------------------------------------------------------------
C9.
---------------------------------------------------------------------- -/

/-- C9: validate_choice accepts every input when valid_options is None or the
empty list, for either value of case_sensitive; for a non-empty option list
with case-insensitive comparison it accepts exactly the inputs whose
lowercasing equals the lowercasing of some option. -/
theorem validate_choice_spec (user_input : String) (case_sensitive : Bool)
    (opts : List String) :
    InputValidator.validate_choice user_input none case_sensitive = true ∧
    InputValidator.validate_choice user_input (some []) case_sensitive = true ∧
    (opts ≠ [] →
      (InputValidator.validate_choice user_input (some opts) false = true ↔
        ∃ o ∈ opts, lowerString o = lowerString user_input)) := by
  refine ⟨rfl, rfl, fun hne => ?_⟩
  simp only [InputValidator.validate_choice]
  rw [if_neg hne]
  simp [List.contains_iff_exists_mem_beq, List.mem_map]

/-- C9 witness: with options yes/no, the input YES is accepted
case-insensitively, and the None / empty-list cases accept it too. -/
theorem validate_choice_spec_witness :
    InputValidator.validate_choice "YES" none true = true ∧
    InputValidator.validate_choice "YES" (some []) true = true ∧
    (InputValidator.validate_choice "YES" (some ["yes", "no"]) false = true ↔
      ∃ o ∈ (["yes", "no"] : List String), lowerString o = lowerString "YES") := by
  have h := validate_choice_spec "YES" true ["yes", "no"]
  exact ⟨h.1, h.2.1, h.2.2 (by decide)⟩

/- ----------------------------------------------------------------------
C10.
---------------------------------------------------------------------- -/

/-- C10: validate_numeric is total and returns either the successfully
converted value or None; a conversion failure (the ValueError of int/float)
yields None rather than an escaping exception. Concretely for the int
conversion, the unparsable string 3.5 yields None and a parsable one its
value. -/
theorem validate_numeric_total {α : Type}
    (expected_type : String → Except String α) (user_input : String) :
    (InputValidator.validate_numeric expected_type user_input = none ↔
      ∃ e, expected_type user_input = .error e) ∧
    (∀ v, InputValidator.validate_numeric expected_type user_input = some v ↔
      expected_type user_input = .ok v) ∧
    InputValidator.validate_numeric pyIntOfString "3.5" = none ∧
    InputValidator.validate_numeric pyIntOfString " 42 " = some 42 ∧
    InputValidator.validate_numeric pyIntOfString "-7" = some (-7) := by
  refine ⟨?_, ?_, by decide, by decide, by decide⟩
  · unfold InputValidator.validate_numeric
    cases h : expected_type user_input <;> simp
  · intro v
    unfold InputValidator.validate_numeric
    cases h : expected_type user_input <;> simp

/- ----------------------------------------------------------------------
C3.
---------------------------------------------------------------------- -/

/-- C3 counterexample: a conflict-free configuration (no check fires) whose
visualization intent is plot is nevertheless mutated by the resolver, because
validate_and_prompt unconditionally re-collects plot settings; with the
default answer a to the real/imag prompt, the stored show_real = true is
overwritten. -/
theorem resolver_not_idempotent_on_plot :
    conflictFree cfgPlotDensity ∧
    validate_and_prompt cfgPlotDensity defaultResponses ≠ .done cfgPlotDensity := by
  decide

/-- C3 amended: re-running the resolver on a conflict-free configuration whose
visualization intent is not plot performs no mutation and returns it
unchanged, whatever the prompt responses. -/
theorem resolver_idempotent_conflict_free (cfg : Config) (r : Responses)
    (h : conflictFree cfg) (hviz : cfg.visualization_type ≠ "plot") :
    validate_and_prompt cfg r = .done cfg := by
  obtain ⟨h1, h2, h3, h4⟩ := h
  have e1 : step1 cfg r = .done cfg := by unfold step1; rw [if_neg h1]
  have e2 : step2 cfg r = cfg := by unfold step2; rw [if_neg h2]
  have em : midPlot cfg r = cfg := by unfold midPlot; rw [if_neg hviz]
  have e3 : step3 cfg r = .done cfg := by unfold step3; rw [if_neg h3]
  have e4 : step4 cfg r = cfg := by unfold step4; rw [if_neg h4]
  unfold validate_and_prompt
  rw [e1, vpBind_done, e2, em, e3, vpBind_done, e4]

/-- C3 amended witness: a concrete conflict-free configuration with
visualization intent none is returned unchanged. -/
theorem resolver_idempotent_conflict_free_witness :
    validate_and_prompt
      { cfgDensityAD with noise_enabled := false } defaultResponses =
      .done { cfgDensityAD with noise_enabled := false } :=
  resolver_idempotent_conflict_free
    { cfgDensityAD with noise_enabled := false } defaultResponses
    (by decide) (by decide)

/- ----------------------------------------------------------------------
C2.
---------------------------------------------------------------------- -/

/-- C2 counterexample: the check-3 prompt offers three tokens, not four, and
the default token p is not a proceed-unchanged resolution: on the spec's own
scenario (density mode, PHASE_FLIP noise, noise enabled) answering p disables
noise. -/
theorem check3_three_options_p_disables :
    density_noise_options.length = 3 ∧
    validate_and_prompt cfgDensityPF defaultResponses =
      .done { cfgDensityPF with noise_enabled := false } := by
  decide

/-- C2 amended: when the simulation mode is density, the active noise family is
single-qubit-only and noise is enabled, check 3 fires with the three
resolutions of density_noise_options (disable noise via the default token p,
switch noise family, cancel); choosing the disable resolution sets
noise_enabled to false and leaves the noise family (and everything else)
unchanged. -/
theorem check3_disable_resolution (cfg : Config) (r : Responses)
    (hsm : cfg.sim_mode = "density")
    (hnt : cfg.noise_type ∈ SINGLE_QUBIT_NOISE_TYPES)
    (hen : cfg.noise_enabled = true)
    (hq : cfg.num_qubits ≤ 1)
    (hviz : cfg.visualization_type = "none")
    (hr : r.c3 = "p") :
    validate_and_prompt cfg r = .done { cfg with noise_enabled := false } := by
  have e1 : step1 cfg r = .done cfg := by
    unfold step1
    rw [if_neg (by intro hc; omega)]
  have e2 : step2 cfg r = cfg := by
    unfold step2
    rw [if_neg (by intro hc; rw [hviz] at hc; exact absurd hc.1 (by decide))]
  have em : midPlot cfg r = cfg := by
    unfold midPlot
    rw [if_neg (by rw [hviz]; decide)]
  have e3 : step3 cfg r = .done { cfg with noise_enabled := false } := by
    unfold step3
    rw [if_pos ⟨hsm, hnt, hen⟩, hr]
    rw [show promptChoice "p" "p" density_noise_options = "p" from by decide]
    simp
  have e4 : step4 { cfg with noise_enabled := false } r =
      { cfg with noise_enabled := false } := by
    unfold step4
    rw [if_neg (by intro hc; rw [show Config.visualization_type { cfg with noise_enabled := false } = "none" from by simp [hviz]] at hc; exact absurd hc.1 (by decide))]
  unfold validate_and_prompt
  rw [e1, vpBind_done, e2, em, e3, vpBind_done, e4]

/-- C2 amended witness: on a one-qubit density configuration with
AMPLITUDE_DAMPING noise enabled, answering p at check 3 disables noise and
changes nothing else. -/
theorem check3_disable_resolution_witness :
    validate_and_prompt cfgDensityAD defaultResponses =
      .done { cfgDensityAD with noise_enabled := false } :=
  check3_disable_resolution cfgDensityAD defaultResponses rfl (by decide) rfl
    (by decide) rfl rfl

/- ----------------------------------------------------------------------
C5.
---------------------------------------------------------------------- -/

/-- C5 counterexample: check 2 does not offer the three choices of check 1
plus a fourth; its prompt has exactly three tokens and, unlike check 1, no
cancel token at all. -/
theorem check2_options_differ_from_check1 :
    "c" ∈ single_qubit_noise_options ∧
    hypergraph_single_qubit_options.length = 3 ∧
    "c" ∉ hypergraph_single_qubit_options := by
  decide

/-- C5 amended: when the visualization intent is hypergraph, the noise family
is single-qubit-only and the qubit count exceeds 1, check 2 fires and offers
proceed unchanged (p), switch noise family (switch, with the same token
mapping as check 1), and changing the visualization intent to plot (v); it
offers no cancel. Answering v runs switch_to_plot, which sets the
visualization intent to plot and leaves the noise family untouched. -/
theorem check2_resolutions (cfg : Config) (r : Responses)
    (hviz : cfg.visualization_type = "hypergraph")
    (hnt : cfg.noise_type ∈ SINGLE_QUBIT_NOISE_TYPES)
    (hq : 1 < cfg.num_qubits) :
    (r.c2 = "p" → step2 cfg r = cfg) ∧
    (r.c2 = "switch" → r.c2noise = "d" →
      step2 cfg r = { cfg with noise_type := "DEPOLARIZING" }) ∧
    (r.c2 = "v" →
      step2 cfg r = switch_to_plot cfg r.plot2 ∧
      (step2 cfg r).visualization_type = "plot" ∧
      (step2 cfg r).noise_type = cfg.noise_type) := by
  have hcond : cfg.visualization_type = "hypergraph" ∧
      cfg.noise_type ∈ SINGLE_QUBIT_NOISE_TYPES ∧ 1 < cfg.num_qubits :=
    ⟨hviz, hnt, hq⟩
  refine ⟨fun hp => ?_, fun hs hd => ?_, fun hv => ?_⟩
  · unfold step2
    rw [if_pos hcond, hp]
    rw [show promptChoice "p" "p" hypergraph_single_qubit_options = "p" from by decide]
    simp
  · unfold step2
    rw [if_pos hcond, hs, hd]
    rw [show promptChoice "switch" "p" hypergraph_single_qubit_options = "switch" from by decide]
    rw [show promptChoice "d" "depolarizing" noise_switch_options = "d" from by decide]
    simp [resolveNoiseSwitch]
  · have e2 : step2 cfg r = switch_to_plot cfg r.plot2 := by
      unfold step2
      rw [if_pos hcond, hv]
      rw [show promptChoice "v" "p" hypergraph_single_qubit_options = "v" from by decide]
      simp
    refine ⟨e2, ?_, ?_⟩
    · rw [e2]; exact (switch_to_plot_fields cfg r.plot2).1
    · rw [e2]; exact (switch_to_plot_fields cfg r.plot2).2.1

/-- C5 amended witness: check 2 on a concrete hypergraph configuration with
response v switches the visualization intent to plot, keeping the noise
family. -/
theorem check2_resolutions_witness :
    step2 cfgHyperPF responsesV = switch_to_plot cfgHyperPF responsesV.plot2 ∧
    (step2 cfgHyperPF responsesV).visualization_type = "plot" ∧
    (step2 cfgHyperPF responsesV).noise_type = cfgHyperPF.noise_type :=
  (check2_resolutions cfgHyperPF responsesV rfl (by decide) (by decide)).2.2 rfl

/- ----------------------------------------------------------------------
C7.
---------------------------------------------------------------------- -/

/-- C7: answering cancel (token c) at either check that offers it makes the
whole resolver pass return the restart signal: the in-progress configuration
is discarded, no later check runs on it, and the check is not retried. The
first conjunct covers check 1 on any configuration that triggers it; the
second covers check 3 on any configuration on which the earlier stages are
quiet. -/
theorem cancel_aborts_resolution (cfg : Config) (r : Responses) :
    ((cfg.noise_type ∈ SINGLE_QUBIT_NOISE_TYPES ∧ 1 < cfg.num_qubits) →
      r.c1 = "c" → validate_and_prompt cfg r = .restart) ∧
    (cfg.num_qubits ≤ 1 → cfg.visualization_type = "none" →
      cfg.sim_mode = "density" → cfg.noise_type ∈ SINGLE_QUBIT_NOISE_TYPES →
      cfg.noise_enabled = true → r.c3 = "c" →
      validate_and_prompt cfg r = .restart) := by
  constructor
  · intro h1 hr
    have e1 : step1 cfg r = .restart := by
      unfold step1
      rw [if_pos h1, hr]
      rw [show promptChoice "c" "p" single_qubit_noise_options = "c" from by decide]
      simp
    unfold validate_and_prompt
    rw [e1, vpBind_restart]
  · intro hq hviz hsm hnt hen hr
    have e1 : step1 cfg r = .done cfg := by
      unfold step1
      rw [if_neg (by intro hc; omega)]
    have e2 : step2 cfg r = cfg := by
      unfold step2
      rw [if_neg (by intro hc; rw [hviz] at hc; exact absurd hc.1 (by decide))]
    have em : midPlot cfg r = cfg := by
      unfold midPlot
      rw [if_neg (by rw [hviz]; decide)]
    have e3 : step3 cfg r = .restart := by
      unfold step3
      rw [if_pos ⟨hsm, hnt, hen⟩, hr]
      rw [show promptChoice "c" "p" density_noise_options = "c" from by decide]
      simp
    unfold validate_and_prompt
    rw [e1, vpBind_done, e2, em, e3, vpBind_restart]

/-- C7 witness: cancel at check 1 on a triggering three-qubit configuration
and cancel at check 3 on a triggering one-qubit density configuration both
restart. -/
theorem cancel_aborts_resolution_witness :
    validate_and_prompt cfgMultiAD responsesC1 = .restart ∧
    validate_and_prompt cfgDensityPF responsesC3 = .restart :=
  ⟨(cancel_aborts_resolution cfgMultiAD responsesC1).1 (by decide) rfl,
   (cancel_aborts_resolution cfgDensityPF responsesC3).2 (by decide) rfl rfl
     (by decide) rfl rfl⟩

/- ----------------------------------------------------------------------
Characterizations of the individual validator checks.
---------------------------------------------------------------------- -/

/-- Spec-side reading of the angle rule as validate_inputs enforces it. -/
def AngleOk (state_type : String) (angle : Option ℚ) : Prop :=
  state_type = "CLUSTER" → ∀ x, angle = some x → 0 ≤ x ∧ x ≤ 2 * np_pi

/-- Spec-side reading of the error-rate rule as validate_inputs enforces it. -/
def ErrorRateOk (error_rate : Option ℚ) : Prop :=
  ∀ e, error_rate = some e → 0 ≤ e ∧ e ≤ 1

/-- Spec-side reading of the z/i simplex rule as validate_inputs enforces it:
it binds only configs whose noise family is PHASE_FLIP. -/
def PhaseFlipOk (noise_type : String) (z_prob i_prob : Option ℚ) : Prop :=
  noise_type = "PHASE_FLIP" → z_prob ≠ none ∨ i_prob ≠ none →
    ∃ zv iv, z_prob = some zv ∧ i_prob = some iv ∧
      0 ≤ zv ∧ zv ≤ 1 ∧ 0 ≤ iv ∧ iv ≤ 1 ∧ |zv + iv - 1| < 1e-10

/-- Spec-side reading of the t1/t2 rule as validate_inputs enforces it: it
binds only configs whose noise family is THERMAL_RELAXATION. -/
def ThermalOk (noise_type : String) (t1 t2 : Option ℚ) : Prop :=
  noise_type = "THERMAL_RELAXATION" → t1 ≠ none ∨ t2 ≠ none →
    ∃ a b, t1 = some a ∧ t2 = some b ∧ 0 < a ∧ 0 < b ∧ b ≤ a

lemma checkAngle_ok_iff (state_type : String) (angle : Option ℚ) :
    checkAngle state_type angle = .ok () ↔ AngleOk state_type angle := by
  unfold checkAngle AngleOk
  by_cases h : state_type = "CLUSTER"
  · cases angle with
    | none => simp [h]
    | some x =>
      simp only [h, if_true]
      split_ifs with hx <;> simp_all
  · simp [h]

lemma checkErrorRate_ok_iff (error_rate : Option ℚ) :
    checkErrorRate error_rate = .ok () ↔ ErrorRateOk error_rate := by
  unfold checkErrorRate ErrorRateOk
  cases error_rate with
  | none => simp
  | some e =>
    dsimp only
    split_ifs with he <;> simp_all

lemma checkPhaseFlip_ok_iff (noise_type : String) (z_prob i_prob : Option ℚ) :
    checkPhaseFlip noise_type z_prob i_prob = .ok () ↔
      PhaseFlipOk noise_type z_prob i_prob := by
  unfold checkPhaseFlip PhaseFlipOk
  by_cases h : noise_type = "PHASE_FLIP"
  · cases z_prob with
    | none =>
      cases i_prob with
      | none => simp [h]
      | some iv => simp [h]
    | some zv =>
      cases i_prob with
      | none => simp [h]
      | some iv =>
        simp only [h, Option.isSome_some, Bool.or_self, if_true, true_and]
        split_ifs with hc <;> simp_all
  · simp [h]

lemma checkThermal_ok_iff (noise_type : String) (t1 t2 : Option ℚ) :
    checkThermal noise_type t1 t2 = .ok () ↔ ThermalOk noise_type t1 t2 := by
  unfold checkThermal ThermalOk
  by_cases h : noise_type = "THERMAL_RELAXATION"
  · cases t1 with
    | none =>
      cases t2 with
      | none => simp [h]
      | some b => simp [h]
    | some a =>
      cases t2 with
      | none => simp [h]
      | some b =>
        simp only [h, Option.isSome_some, Bool.or_self, if_true, true_and]
        split_ifs with hc
        · simp_all
          intro ha hb
          rcases hc with hx | hx | hx
          · exact absurd ha (by linarith)
          · exact absurd hb (by linarith)
          · exact hx
        · push_neg at hc
          simp_all
  · simp [h]

/-- The messages of every ValueError validate_inputs can raise (static
parts). -/
def validationMessages : List String :=
  ["Number of qubits must be at least 1.",
   "Invalid state type",
   "Invalid noise type",
   "Invalid simulation mode",
   "Angle for CLUSTER state must be between 0 and 2π radians.",
   "Error rate must be between 0 and 1.",
   "Both z_prob and i_prob must be provided for PHASE_FLIP noise.",
   "Z and I probabilities for PHASE_FLIP must sum to 1 and be between 0 and 1.",
   "Both t1 and t2 must be provided for THERMAL_RELAXATION noise.",
   "T1 and T2 must be positive, with T2 <= T1 for realistic relaxation."]

lemma checkAngle_cases (state_type : String) (angle : Option ℚ) :
    checkAngle state_type angle = .ok () ∨
    checkAngle state_type angle =
      .error "Angle for CLUSTER state must be between 0 and 2π radians." := by
  unfold checkAngle
  by_cases h : state_type = "CLUSTER"
  · cases angle with
    | none => simp [h]
    | some x =>
      simp only [h, if_true]
      split_ifs <;> simp
  · simp [h]

lemma checkErrorRate_cases (error_rate : Option ℚ) :
    checkErrorRate error_rate = .ok () ∨
    checkErrorRate error_rate = .error "Error rate must be between 0 and 1." := by
  unfold checkErrorRate
  cases error_rate with
  | none => simp
  | some e =>
    dsimp only
    split_ifs <;> simp

lemma checkPhaseFlip_cases (noise_type : String) (z_prob i_prob : Option ℚ) :
    checkPhaseFlip noise_type z_prob i_prob = .ok () ∨
    checkPhaseFlip noise_type z_prob i_prob =
      .error "Both z_prob and i_prob must be provided for PHASE_FLIP noise." ∨
    checkPhaseFlip noise_type z_prob i_prob =
      .error "Z and I probabilities for PHASE_FLIP must sum to 1 and be between 0 and 1." := by
  unfold checkPhaseFlip
  split_ifs with h
  · cases z_prob with
    | none => cases i_prob <;> simp
    | some zv =>
      cases i_prob with
      | none => simp
      | some iv =>
        dsimp only
        split_ifs <;> simp
  · simp

lemma checkThermal_cases (noise_type : String) (t1 t2 : Option ℚ) :
    checkThermal noise_type t1 t2 = .ok () ∨
    checkThermal noise_type t1 t2 =
      .error "Both t1 and t2 must be provided for THERMAL_RELAXATION noise." ∨
    checkThermal noise_type t1 t2 =
      .error "T1 and T2 must be positive, with T2 <= T1 for realistic relaxation." := by
  unfold checkThermal
  split_ifs with h
  · cases t1 with
    | none => cases t2 <;> simp
    | some a =>
      cases t2 with
      | none => simp
      | some b =>
        dsimp only
        split_ifs <;> simp
  · simp

/-- Acceptance characterization of validate_inputs, shared by the contract
theorems. -/
lemma validate_inputs_ok_iff (num_qubits : Int)
    (state_type noise_type sim_mode : String)
    (angle error_rate z_prob i_prob t1 t2 : Option ℚ) :
    validate_inputs num_qubits state_type noise_type sim_mode angle error_rate
        z_prob i_prob t1 t2 = .ok () ↔
      1 ≤ num_qubits ∧ state_type ∈ STATE_CLASSES_keys ∧
      noise_type ∈ NOISE_CLASSES_keys ∧
      sim_mode ∈ (["qasm", "density"] : List String) ∧
      AngleOk state_type angle ∧ ErrorRateOk error_rate ∧
      PhaseFlipOk noise_type z_prob i_prob ∧ ThermalOk noise_type t1 t2 := by
  unfold validate_inputs
  by_cases h1 : num_qubits < 1
  · rw [if_pos h1]
    exact iff_of_false (by simp) (fun hc => absurd hc.1 (by omega))
  · rw [if_neg h1]
    by_cases h2 : state_type ∉ STATE_CLASSES_keys
    · rw [if_pos h2]
      exact iff_of_false (by simp) (fun hc => h2 hc.2.1)
    · rw [if_neg h2]
      by_cases h3 : noise_type ∉ NOISE_CLASSES_keys
      · rw [if_pos h3]
        exact iff_of_false (by simp) (fun hc => h3 hc.2.2.1)
      · rw [if_neg h3]
        by_cases h4 : sim_mode ∉ (["qasm", "density"] : List String)
        · rw [if_pos h4]
          exact iff_of_false (by simp) (fun hc => h4 hc.2.2.2.1)
        · rw [if_neg h4]
          have h1' : 1 ≤ num_qubits := by omega
          rw [not_not] at h2 h3 h4
          simp only [except_bind_ok_iff, checkAngle_ok_iff,
            checkErrorRate_ok_iff, checkPhaseFlip_ok_iff, checkThermal_ok_iff]
          simp [h1', h2, h3, h4, and_assoc]

/-- Every run of validate_inputs either accepts or fails with one of its ten
fixed rule-naming messages. -/
lemma validate_inputs_error_cases (num_qubits : Int)
    (state_type noise_type sim_mode : String)
    (angle error_rate z_prob i_prob t1 t2 : Option ℚ) :
    validate_inputs num_qubits state_type noise_type sim_mode angle error_rate
        z_prob i_prob t1 t2 = .ok () ∨
    ∃ m, validate_inputs num_qubits state_type noise_type sim_mode angle
        error_rate z_prob i_prob t1 t2 = .error m ∧ m ∈ validationMessages := by
  unfold validate_inputs
  by_cases h1 : num_qubits < 1
  · rw [if_pos h1]
    exact .inr ⟨"Number of qubits must be at least 1.", rfl, by decide⟩
  · rw [if_neg h1]
    by_cases h2 : state_type ∉ STATE_CLASSES_keys
    · rw [if_pos h2]
      exact .inr ⟨"Invalid state type", rfl, by decide⟩
    · rw [if_neg h2]
      by_cases h3 : noise_type ∉ NOISE_CLASSES_keys
      · rw [if_pos h3]
        exact .inr ⟨"Invalid noise type", rfl, by decide⟩
      · rw [if_neg h3]
        by_cases h4 : sim_mode ∉ (["qasm", "density"] : List String)
        · rw [if_pos h4]
          exact .inr ⟨"Invalid simulation mode", rfl, by decide⟩
        · rw [if_neg h4]
          rcases checkAngle_cases state_type angle with hA | hA
          · rcases checkErrorRate_cases error_rate with hE | hE
            · rcases checkPhaseFlip_cases noise_type z_prob i_prob with hP | hP | hP
              · rcases checkThermal_cases noise_type t1 t2 with hT | hT | hT
                · exact .inl (by simp only [bind, Except.bind, hA, hE, hP, hT])
                · exact .inr ⟨"Both t1 and t2 must be provided for THERMAL_RELAXATION noise.",
                    by simp only [bind, Except.bind, hA, hE, hP, hT], by decide⟩
                · exact .inr ⟨"T1 and T2 must be positive, with T2 <= T1 for realistic relaxation.",
                    by simp only [bind, Except.bind, hA, hE, hP, hT], by decide⟩
              · exact .inr ⟨"Both z_prob and i_prob must be provided for PHASE_FLIP noise.",
                  by simp only [bind, Except.bind, hA, hE, hP], by decide⟩
              · exact .inr ⟨"Z and I probabilities for PHASE_FLIP must sum to 1 and be between 0 and 1.",
                  by simp only [bind, Except.bind, hA, hE, hP], by decide⟩
            · exact .inr ⟨"Error rate must be between 0 and 1.",
                by simp only [bind, Except.bind, hA, hE], by decide⟩
          · exact .inr ⟨"Angle for CLUSTER state must be between 0 and 2π radians.",
              by simp only [bind, Except.bind, hA], by decide⟩

/-- Successful Except prefixes pass control to the continuation. -/
lemma except_ok_unit_bind (f : Unit → Except String Unit) :
    ((Except.ok () : Except String Unit) >>= f) = f () := rfl

/-- Under the generic field checks, validate_inputs reduces to the two
noise-family-gated pair checks. -/
lemma validate_inputs_tail (num_qubits : Int)
    (state_type noise_type sim_mode : String)
    (angle error_rate z_prob i_prob t1 t2 : Option ℚ)
    (hq : 1 ≤ num_qubits) (hst : state_type ∈ STATE_CLASSES_keys)
    (hnt : noise_type ∈ NOISE_CLASSES_keys)
    (hsm : sim_mode ∈ (["qasm", "density"] : List String))
    (ha : checkAngle state_type angle = .ok ())
    (her : checkErrorRate error_rate = .ok ()) :
    validate_inputs num_qubits state_type noise_type sim_mode angle error_rate
        z_prob i_prob t1 t2 =
      (checkPhaseFlip noise_type z_prob i_prob >>= fun _ =>
        checkThermal noise_type t1 t2) := by
  unfold validate_inputs
  rw [if_neg (by omega), if_neg (not_not_intro hst), if_neg (not_not_intro hnt),
    if_neg (not_not_intro hsm)]
  simp only [ha, her, except_ok_unit_bind]

/-- The thermal check never fires when the noise family is PHASE_FLIP. -/
lemma checkThermal_phase_flip (t1 t2 : Option ℚ) :
    checkThermal "PHASE_FLIP" t1 t2 = .ok () := by
  unfold checkThermal
  rw [if_neg (by intro hc; exact absurd hc.1 (by decide))]

/-- The phase-flip check never fires when the noise family is
THERMAL_RELAXATION. -/
lemma checkPhaseFlip_thermal (z_prob i_prob : Option ℚ) :
    checkPhaseFlip "THERMAL_RELAXATION" z_prob i_prob = .ok () := by
  unfold checkPhaseFlip
  rw [if_neg (by intro hc; exact absurd hc.1 (by decide))]

/- ----------------------------------------------------------------------
C8.
---------------------------------------------------------------------- -/

/-- C8 counterexample: a config violating a §3 invariant (z_prob set without
i_prob) is accepted rather than rejected, because the z/i pair rule is only
enforced for the PHASE_FLIP noise family. -/
theorem validator_accepts_partial_pair :
    (some ((1 : ℚ)/2) ≠ (none : Option ℚ)) ∧
    validate_inputs 1 "GHZ" "DEPOLARIZING" "qasm" none none
      (some ((1 : ℚ)/2)) none none none = .ok () := by
  constructor
  · simp
  · decide

/-- C8 amended: validate_inputs is a pure function of its arguments; it
accepts exactly the configs passing its checks — positive qubit count, known
state and noise families, known simulation mode, CLUSTER angle in range,
error rate in range, and the z/i and t1/t2 pair invariants enforced only when
the noise family is PHASE_FLIP resp. THERMAL_RELAXATION — and every rejection
carries one of its fixed rule-naming messages. -/
theorem validate_inputs_contract (num_qubits : Int)
    (state_type noise_type sim_mode : String)
    (angle error_rate z_prob i_prob t1 t2 : Option ℚ) :
    (validate_inputs num_qubits state_type noise_type sim_mode angle error_rate
        z_prob i_prob t1 t2 = .ok () ↔
      1 ≤ num_qubits ∧ state_type ∈ STATE_CLASSES_keys ∧
      noise_type ∈ NOISE_CLASSES_keys ∧
      sim_mode ∈ (["qasm", "density"] : List String) ∧
      AngleOk state_type angle ∧ ErrorRateOk error_rate ∧
      PhaseFlipOk noise_type z_prob i_prob ∧ ThermalOk noise_type t1 t2) ∧
    (validate_inputs num_qubits state_type noise_type sim_mode angle error_rate
        z_prob i_prob t1 t2 = .ok () ∨
      ∃ m, validate_inputs num_qubits state_type noise_type sim_mode angle
          error_rate z_prob i_prob t1 t2 = .error m ∧ m ∈ validationMessages) :=
  ⟨validate_inputs_ok_iff num_qubits state_type noise_type sim_mode angle
      error_rate z_prob i_prob t1 t2,
   validate_inputs_error_cases num_qubits state_type noise_type sim_mode angle
      error_rate z_prob i_prob t1 t2⟩

/- ----------------------------------------------------------------------
C1.
---------------------------------------------------------------------- -/

/-- C1 counterexample: a config in which both z_prob and i_prob are set and
their sum deviates from 1 by more than 1e-10 is accepted, not rejected,
because its noise family is DEPOLARIZING and the simplex rule only runs for
PHASE_FLIP. -/
theorem simplex_rule_skipped_for_other_noise :
    |(3 : ℚ)/5 + 3/10 - 1| ≥ 1e-10 ∧
    validate_inputs 1 "GHZ" "DEPOLARIZING" "qasm" none none
      (some ((3 : ℚ)/5)) (some ((3 : ℚ)/10)) none none = .ok () := by
  constructor
  · rw [show (3 : ℚ)/5 + 3/10 - 1 = -(1/10) by norm_num, abs_neg,
      abs_of_nonneg (by norm_num)]
    norm_num
  · decide

/-- C1 amended: for configs whose noise family is PHASE_FLIP and whose other
fields pass their checks, the validator accepts a fully supplied z/i pair
exactly when both probabilities lie in [0,1] and their sum is within strictly
1e-10 of 1, rejecting with the simplex-rule message otherwise, and always
rejects a partially supplied pair with the pairing message. -/
theorem validate_inputs_phase_flip_pair (num_qubits : Int)
    (state_type sim_mode : String) (angle error_rate t1 t2 : Option ℚ)
    (z i : ℚ)
    (hq : 1 ≤ num_qubits) (hst : state_type ∈ STATE_CLASSES_keys)
    (hsm : sim_mode ∈ (["qasm", "density"] : List String))
    (ha : checkAngle state_type angle = .ok ())
    (her : checkErrorRate error_rate = .ok ()) :
    validate_inputs num_qubits state_type "PHASE_FLIP" sim_mode angle
        error_rate (some z) (some i) t1 t2 =
      (if 0 ≤ z ∧ z ≤ 1 ∧ 0 ≤ i ∧ i ≤ 1 ∧ |z + i - 1| < 1e-10 then .ok ()
       else .error "Z and I probabilities for PHASE_FLIP must sum to 1 and be between 0 and 1.") ∧
    validate_inputs num_qubits state_type "PHASE_FLIP" sim_mode angle
        error_rate (some z) none t1 t2 =
      .error "Both z_prob and i_prob must be provided for PHASE_FLIP noise." ∧
    validate_inputs num_qubits state_type "PHASE_FLIP" sim_mode angle
        error_rate none (some i) t1 t2 =
      .error "Both z_prob and i_prob must be provided for PHASE_FLIP noise." := by
  have hnt : "PHASE_FLIP" ∈ NOISE_CLASSES_keys := by decide
  refine ⟨?_, ?_, ?_⟩
  · rw [validate_inputs_tail num_qubits state_type "PHASE_FLIP" sim_mode angle
      error_rate (some z) (some i) t1 t2 hq hst hnt hsm ha her]
    simp only [checkThermal_phase_flip, except_bind_ok_right]
    unfold checkPhaseFlip
    rw [if_pos ⟨rfl, rfl⟩]
  · rw [validate_inputs_tail num_qubits state_type "PHASE_FLIP" sim_mode angle
      error_rate (some z) none t1 t2 hq hst hnt hsm ha her]
    simp only [checkThermal_phase_flip, except_bind_ok_right]
    unfold checkPhaseFlip
    rw [if_pos ⟨rfl, rfl⟩]
  · rw [validate_inputs_tail num_qubits state_type "PHASE_FLIP" sim_mode angle
      error_rate none (some i) t1 t2 hq hst hnt hsm ha her]
    simp only [checkThermal_phase_flip, except_bind_ok_right]
    unfold checkPhaseFlip
    rw [if_pos ⟨rfl, rfl⟩]

/-- C1 amended witness: a valid pair summing to 1 is accepted. -/
theorem validate_inputs_phase_flip_pair_witness :
    validate_inputs 1 "GHZ" "PHASE_FLIP" "qasm" none none
      (some ((3 : ℚ)/5)) (some ((2 : ℚ)/5)) none none = .ok () := by
  have h := (validate_inputs_phase_flip_pair 1 "GHZ" "qasm" none none none none
    ((3 : ℚ)/5) ((2 : ℚ)/5) (by norm_num) (by decide) (by decide) rfl rfl).1
  rw [h, if_pos (by norm_num [abs_lt])]

/- ----------------------------------------------------------------------
C4.
---------------------------------------------------------------------- -/

/-- C4 counterexample: a config in which both t1 and t2 are set with t2 > t1
is accepted, not rejected, because its noise family is DEPOLARIZING and the
relaxation-ordering rule only runs for THERMAL_RELAXATION. -/
theorem thermal_rule_skipped_for_other_noise :
    ((100 : ℚ)/1000000 > 80/1000000) ∧
    validate_inputs 1 "GHZ" "DEPOLARIZING" "qasm" none none none none
      (some ((80 : ℚ)/1000000)) (some ((100 : ℚ)/1000000)) = .ok () := by
  constructor
  · norm_num
  · decide

/-- C4 amended: for configs whose noise family is THERMAL_RELAXATION and whose
other fields pass their checks, the validator accepts a fully supplied t1/t2
pair exactly when both are strictly positive and t2 ≤ t1, rejecting with the
relaxation-rule message otherwise, and always rejects a partially supplied
pair with the pairing message. -/
theorem validate_inputs_thermal_pair (num_qubits : Int)
    (state_type sim_mode : String)
    (angle error_rate z_prob i_prob : Option ℚ) (t1v t2v : ℚ)
    (hq : 1 ≤ num_qubits) (hst : state_type ∈ STATE_CLASSES_keys)
    (hsm : sim_mode ∈ (["qasm", "density"] : List String))
    (ha : checkAngle state_type angle = .ok ())
    (her : checkErrorRate error_rate = .ok ()) :
    (validate_inputs num_qubits state_type "THERMAL_RELAXATION" sim_mode angle
        error_rate z_prob i_prob (some t1v) (some t2v) = .ok () ↔
      0 < t1v ∧ 0 < t2v ∧ t2v ≤ t1v) ∧
    (¬(0 < t1v ∧ 0 < t2v ∧ t2v ≤ t1v) →
      validate_inputs num_qubits state_type "THERMAL_RELAXATION" sim_mode angle
        error_rate z_prob i_prob (some t1v) (some t2v) =
        .error "T1 and T2 must be positive, with T2 <= T1 for realistic relaxation.") ∧
    validate_inputs num_qubits state_type "THERMAL_RELAXATION" sim_mode angle
        error_rate z_prob i_prob (some t1v) none =
      .error "Both t1 and t2 must be provided for THERMAL_RELAXATION noise." ∧
    validate_inputs num_qubits state_type "THERMAL_RELAXATION" sim_mode angle
        error_rate z_prob i_prob none (some t2v) =
      .error "Both t1 and t2 must be provided for THERMAL_RELAXATION noise." := by
  have hnt : "THERMAL_RELAXATION" ∈ NOISE_CLASSES_keys := by decide
  refine ⟨?_, ?_, ?_, ?_⟩
  · rw [validate_inputs_tail num_qubits state_type "THERMAL_RELAXATION" sim_mode
      angle error_rate z_prob i_prob (some t1v) (some t2v) hq hst hnt hsm ha her]
    simp only [checkPhaseFlip_thermal, except_ok_unit_bind]
    unfold checkThermal
    rw [if_pos ⟨rfl, rfl⟩]
    dsimp only
    split_ifs with hc
    · exact iff_of_false (by simp)
        (fun hx => by rcases hc with h | h | h <;> [linarith [hx.1]; linarith [hx.2.1]; linarith [hx.2.2]])
    · push_neg at hc
      exact iff_of_true rfl ⟨hc.1, hc.2.1, hc.2.2⟩
  · intro hn
    rw [validate_inputs_tail num_qubits state_type "THERMAL_RELAXATION" sim_mode
      angle error_rate z_prob i_prob (some t1v) (some t2v) hq hst hnt hsm ha her]
    simp only [checkPhaseFlip_thermal, except_ok_unit_bind]
    unfold checkThermal
    rw [if_pos ⟨rfl, rfl⟩]
    dsimp only
    rw [if_pos ?_]
    by_contra hx
    push_neg at hx
    exact hn ⟨by linarith [hx.1], by linarith [hx.2.1], hx.2.2⟩
  · rw [validate_inputs_tail num_qubits state_type "THERMAL_RELAXATION" sim_mode
      angle error_rate z_prob i_prob (some t1v) none hq hst hnt hsm ha her]
    simp only [checkPhaseFlip_thermal, except_ok_unit_bind]
    unfold checkThermal
    rw [if_pos ⟨rfl, rfl⟩]
  · rw [validate_inputs_tail num_qubits state_type "THERMAL_RELAXATION" sim_mode
      angle error_rate z_prob i_prob none (some t2v) hq hst hnt hsm ha her]
    simp only [checkPhaseFlip_thermal, except_ok_unit_bind]
    unfold checkThermal
    rw [if_pos ⟨rfl, rfl⟩]

/-- C4 amended witness: with THERMAL_RELAXATION noise, the pair
(t1, t2) = (80e-6, 100e-6) is rejected with the relaxation message and the
pair (100e-6, 80e-6) is accepted. -/
theorem validate_inputs_thermal_pair_witness :
    validate_inputs 1 "GHZ" "THERMAL_RELAXATION" "qasm" none none none none
      (some ((80 : ℚ)/1000000)) (some ((100 : ℚ)/1000000)) =
      .error "T1 and T2 must be positive, with T2 <= T1 for realistic relaxation." ∧
    validate_inputs 1 "GHZ" "THERMAL_RELAXATION" "qasm" none none none none
      (some ((100 : ℚ)/1000000)) (some ((80 : ℚ)/1000000)) = .ok () :=
  ⟨(validate_inputs_thermal_pair 1 "GHZ" "qasm" none none none none
      ((80 : ℚ)/1000000) ((100 : ℚ)/1000000) (by norm_num) (by decide)
      (by decide) rfl rfl).2.1 (by norm_num),
   (validate_inputs_thermal_pair 1 "GHZ" "qasm" none none none none
      ((100 : ℚ)/1000000) ((80 : ℚ)/1000000) (by norm_num) (by decide)
      (by decide) rfl rfl).1.mpr (by norm_num)⟩
